import Mathlib

/-!
Verification development for the Kadhali-Healthcare medical PDF analyzer.

The definitions below are a shallow embedding of the server's JavaScript
source (`server/utils/medicalExtraction.js`, `server/utils/llmIntegration.js`,
`server/utils/textExtraction.js`, `server/routes/analyze.js`,
`server/routes/upload.js`).  Pure functions of the source become Lean
functions; I/O boundaries (file reads, HTTP transports, the LLM calls, the
system clock) become explicit parameters; JavaScript exceptions become
`Except`/`Option` values.

The rule-based extractor is regex-driven, so the embedding starts with a
small backtracking regular-expression matcher reproducing the JavaScript
semantics actually exercised by the source patterns: ordered alternation,
greedy quantifiers with full backtracking, leftmost match (`exec` scans
start positions left to right), capture groups that revert on backtracking,
and `g`-flag iteration that resumes at `lastIndex`.  Case-insensitive
(`i`-flag) character classes are translated class by class.
-/

set_option maxHeartbeats 1000000

/-- ASCII letter test: what the JS classes `[A-Z]` and `[a-z]` match under
the `i` flag (all source patterns that contain letters carry the `i` flag). -/
def isAsciiAlpha (c : Char) : Bool :=
  ('a' ≤ c && c ≤ 'z') || ('A' ≤ c && c ≤ 'Z')

/-- JS `\d`. -/
def isDigitCh (c : Char) : Bool :=
  '0' ≤ c && c ≤ '9'

/-- JS `\s` restricted to the ASCII whitespace characters that can occur in
extracted PDF text. -/
def isWsp (c : Char) : Bool :=
  c = ' ' || c = '\t' || c = '\n' || c = '\r' || c = '\x0b' || c = '\x0c'

/-- Regular-expression abstract syntax, covering exactly the constructs used
by the source patterns.  `star` and `opt` are greedy, `alt` is ordered,
`group i r` records the text matched by `r` as capture group `i`. -/
inductive RE where
  | eps : RE
  | cls : (Char → Bool) → RE
  | seq : RE → RE → RE
  | alt : RE → RE → RE
  | star : RE → RE
  | opt : RE → RE
  | group : Nat → RE → RE

/-- A case-sensitive literal character. -/
def chr (c : Char) : RE := .cls (fun x => x = c)

/-- A literal character under the `i` flag. -/
def lchr (c : Char) : RE := .cls (fun x => x.toLower = c.toLower)

/-- A literal string under the `i` flag. -/
def lstr (s : String) : RE := (s.toList.map lchr).foldr .seq .eps

/-- Sequence of a list of regexes. -/
def seqs (l : List RE) : RE := l.foldr .seq .eps

/-- Ordered alternation of a non-empty list (empty list matches nothing). -/
def alts : List RE → RE
  | [] => .cls (fun _ => false)
  | [r] => r
  | r :: rs => .alt r (alts rs)

/-- Greedy `+`. -/
def plus (r : RE) : RE := .seq r (.star r)

/-- Capture environment: latest binding for a group index wins. -/
def Caps := List (Nat × String)

def setCap (caps : Caps) (i : Nat) (v : String) : Caps := (i, v) :: caps

def getCap (caps : Caps) (i : Nat) : Option String :=
  (caps.find? (fun p => p.1 = i)).map (fun p => p.2)

/-- Backtracking matcher in continuation-passing style.  `mrun fuel r s caps k`
tries to match `r` at the start of `s`, extending `caps`, and calls `k` with
the remaining input on success; failure of `k` backtracks into `r`.  Greedy
`star` prefers more iterations and stops iterating on an empty-width match,
exactly as the JS engine does.  `fuel` bounds the nesting depth only (each
entry into a subterm costs one unit); every call site supplies fuel that is
ample for its pattern and input. -/
def mrun {α : Type} : Nat → RE → List Char → Caps →
    (List Char → Caps → Option α) → Option α
  | 0, _, _, _, _ => none
  | fuel + 1, r, s, caps, k =>
    match r with
    | .eps => k s caps
    | .cls p =>
      match s with
      | [] => none
      | c :: rest => if p c then k rest caps else none
    | .seq a b =>
      mrun fuel a s caps (fun s1 caps1 => mrun fuel b s1 caps1 k)
    | .alt a b =>
      match mrun fuel a s caps k with
      | some res => some res
      | none => mrun fuel b s caps k
    | .opt a =>
      match mrun fuel a s caps k with
      | some res => some res
      | none => k s caps
    | .star a =>
      match mrun fuel a s caps (fun s1 caps1 =>
          if s1.length < s.length then mrun fuel (.star a) s1 caps1 k else none) with
      | some res => some res
      | none => k s caps
    | .group i a =>
      mrun fuel a s caps (fun s1 caps1 =>
        k s1 (setCap caps1 i (String.mk (s.take (s.length - s1.length)))))

/-- One anchored match attempt at the current position. -/
def execAttempt (fuel : Nat) (r : RE) (s : List Char) :
    Option (String × Caps × List Char) :=
  match mrun fuel r s [] (fun s1 caps => some (caps, s1)) with
  | some (caps, rest) =>
    some (String.mk (s.take (s.length - rest.length)), caps, rest)
  | none => none

/-- One match attempt per start position, scanning left to right: the JS
`RegExp.prototype.exec` search loop.  Returns the matched substring, the
captures, and the input remaining after the match (the `lastIndex` state). -/
def execFrom (fuel : Nat) (r : RE) : List Char → Option (String × Caps × List Char)
  | [] => execAttempt fuel r []
  | s@(_ :: t) =>
    match execAttempt fuel r s with
    | some res => some res
    | none => execFrom fuel r t

/-- Fuel that is comfortably sufficient for every source pattern on input of
the given length (patterns nest to depth well under 100, and each `star`
level iterates at most once per input character). -/
def fuelFor (s : List Char) : Nat := 100 * (s.length + 2)

/-- `exec` on a freshly created regex (`lastIndex = 0`), as the extractor
does — every pattern object in the source is recreated per call. -/
def jsExec (r : RE) (s : String) : Option (String × Caps) :=
  (execFrom (fuelFor s.toList) r s.toList).map (fun x => (x.1, x.2.1))

/-- The `while ((match = pattern.exec(text)) !== null)` loop over a `g`-flag
regex: repeated `exec`, resuming after each match; a zero-width match
advances by one character (the engine never produces one for the source
patterns, but the guard keeps the model total). -/
def matchAllCore (fuel : Nat) (r : RE) : Nat → List Char → List (String × Caps)
  | 0, _ => []
  | n + 1, s =>
    match execFrom fuel r s with
    | none => []
    | some (whole, caps, rest) =>
      if whole.length = 0 then
        match rest with
        | [] => [(whole, caps)]
        | _ :: t => (whole, caps) :: matchAllCore fuel r n t
      else
        (whole, caps) :: matchAllCore fuel r n rest

def jsMatchAll (r : RE) (s : String) : List (String × Caps) :=
  matchAllCore (fuelFor s.toList) r (s.toList.length + 1) s.toList

/-! ## server/utils/medicalExtraction.js -/

/-- `\s*` -/
def wsStar : RE := .star (.cls isWsp)

/-- `\s+` -/
def wsPlus : RE := plus (.cls isWsp)

/-- `[A-Z]` under the `i` flag. -/
def upperI : RE := .cls isAsciiAlpha

/-- `[a-z]` under the `i` flag. -/
def lowerI : RE := .cls isAsciiAlpha

/-- `\d` -/
def digitC : RE := .cls isDigitCh

/-- `\d+(?:\.\d+)?` -/
def numRE : RE := seqs [plus digitC, .opt (seqs [chr '.', plus digitC])]

/-- `[A-Z][a-z]+(?:\s+[A-Z][a-z]+)*` — a capitalized word sequence. -/
def capWordsRE : RE :=
  seqs [upperI, plus lowerI, .star (seqs [wsPlus, upperI, plus lowerI])]

/-- Pattern `patterns.name[0]`:
`/(?:patient|name|pt\.?)\s*:?\s*([A-Z][a-z]+(?:\s+[A-Z][a-z]+)*)/gi` -/
def namePat1 : RE :=
  seqs [alts [lstr "patient", lstr "name", .seq (lstr "pt") (.opt (chr '.'))],
        wsStar, .opt (chr ':'), wsStar, .group 1 capWordsRE]

/-- Pattern `patterns.name[1]`:
`/(?:mr\.?|mrs\.?|ms\.?|dr\.?)\s+([A-Z][a-z]+(?:\s+[A-Z][a-z]+)*)/gi` -/
def namePat2 : RE :=
  seqs [alts [.seq (lstr "mr") (.opt (chr '.')), .seq (lstr "mrs") (.opt (chr '.')),
              .seq (lstr "ms") (.opt (chr '.')), .seq (lstr "dr") (.opt (chr '.'))],
        wsPlus, .group 1 capWordsRE]

/-- `\d{1,2}` -/
def digit12 : RE := seqs [digitC, .opt digitC]

/-- `\d{2,4}` (greedy). -/
def digit24 : RE := seqs [digitC, digitC, .opt digitC, .opt digitC]

/-- `[\/\-]` -/
def dateSep : RE := .cls (fun c => c = '/' || c = '-')

/-- `(\d{1,2}[\/\-]\d{1,2}[\/\-]\d{2,4})` -/
def dateShapeRE : RE := .group 1 (seqs [digit12, dateSep, digit12, dateSep, digit24])

/-- Pattern `patterns.dob[0]`:
`/(?:dob|date\s+of\s+birth|birth\s+date)\s*:?\s*(\d{1,2}[\/\-]\d{1,2}[\/\-]\d{2,4})/gi` -/
def dobPat1 : RE :=
  seqs [alts [lstr "dob", seqs [lstr "date", wsPlus, lstr "of", wsPlus, lstr "birth"],
              seqs [lstr "birth", wsPlus, lstr "date"]],
        wsStar, .opt (chr ':'), wsStar, dateShapeRE]

/-- Pattern `patterns.dob[1]`: `/(\d{1,2}[\/\-]\d{1,2}[\/\-]\d{2,4})/g` -/
def dobPat2 : RE := dateShapeRE

/-- Pattern `patterns.sex[0]`: `/(?:sex|gender)\s*:?\s*(male|female|m|f)/gi` -/
def sexPat : RE :=
  seqs [alts [lstr "sex", lstr "gender"], wsStar, .opt (chr ':'), wsStar,
        .group 1 (alts [lstr "male", lstr "female", lstr "m", lstr "f"])]

/-- Pattern `patterns.id[0]`:
`/(?:mrn|id|patient\s+id|medical\s+record)\s*:?\s*([A-Z0-9\-]+)/gi` -/
def idPat : RE :=
  seqs [alts [lstr "mrn", lstr "id", seqs [lstr "patient", wsPlus, lstr "id"],
              seqs [lstr "medical", wsPlus, lstr "record"]],
        wsStar, .opt (chr ':'), wsStar,
        .group 1 (plus (.cls (fun c => isAsciiAlpha c || isDigitCh c || c = '-')))]

/-- `(?:cin|mycin|illin|azole|pine|sartan|pril|olol|statin|mab)` — the drug
name suffix alternation, in source order. -/
def drugSufRE : RE :=
  alts [lstr "cin", lstr "mycin", lstr "illin", lstr "azole", lstr "pine",
        lstr "sartan", lstr "pril", lstr "olol", lstr "statin", lstr "mab"]

/-- `([A-Z][a-z]+(?:cin|mycin|illin|azole|pine|sartan|pril|olol|statin|mab))` -/
def drugNameRE : RE := .group 1 (seqs [upperI, plus lowerI, drugSufRE])

/-- `(\d+(?:\.\d+)?\s*(?:mg|g|ml|mcg|units?))` -/
def doseRE : RE :=
  .group 2 (seqs [numRE, wsStar,
    alts [lstr "mg", lstr "g", lstr "ml", lstr "mcg",
          .seq (lstr "unit") (.opt (lchr 's'))]])

/-- `([a-z]+(?:\s+[a-z]+)*)` as capture group 3 — the frequency words. -/
def freqRE : RE := .group 3 (seqs [plus lowerI, .star (seqs [wsPlus, plus lowerI])])

/-- `(\d+\s*(?:days?|weeks?|months?))` as capture group 4. -/
def durRE : RE :=
  .group 4 (seqs [plus digitC, wsStar,
    alts [.seq (lstr "day") (.opt (lchr 's')),
          .seq (lstr "week") (.opt (lchr 's')),
          .seq (lstr "month") (.opt (lchr 's'))]])

/-- Medication pattern 1 (`Drug Name Dose Frequency Route Duration`):
`/([A-Z][a-z]+(?:cin|…|mab))\s+(\d+(?:\.\d+)?\s*(?:mg|g|ml|mcg|units?))\s+([a-z]+(?:\s+[a-z]+)*)\s+(?:for\s+)?(\d+\s*(?:days?|weeks?|months?))?/gi` -/
def medPat1 : RE :=
  seqs [drugNameRE, wsPlus, doseRE, wsPlus, freqRE, wsPlus,
        .opt (.seq (lstr "for") wsPlus), .opt durRE]

/-- Medication pattern 2 (`Rx: Drug Name Dose Frequency`):
`/(?:rx|prescription|medication)\s*:?\s*([A-Z][a-z]+(?:cin|…|mab))\s+(dose)\s+([a-z]+(?:\s+[a-z]+)*)/gi` -/
def medPat2 : RE :=
  seqs [alts [lstr "rx", lstr "prescription", lstr "medication"],
        wsStar, .opt (chr ':'), wsStar, drugNameRE, wsPlus, doseRE, wsPlus, freqRE]

/-- Medication pattern 3 (`Drug Name Dose`):
`/([A-Z][a-z]+(?:cin|…|mab))\s+(\d+(?:\.\d+)?\s*(?:mg|g|ml|mcg|units?))/gi` -/
def medPat3 : RE := seqs [drugNameRE, wsPlus, doseRE]

/-- `([a-z\/]+)` as capture group 3 — lab units. -/
def unitsRE : RE := .group 3 (plus (.cls (fun c => isAsciiAlpha c || c = '/')))

/-- `(?:\(([^)]+)\))?` — optional parenthesized reference range, group 4. -/
def refRangeOptRE : RE :=
  .opt (seqs [chr '(', .group 4 (plus (.cls (fun c => ¬ c = ')'))), chr ')'])

/-- Lab pattern 1 (`Test Name: Value Units (Reference Range)`):
`/([A-Z][a-z]+(?:\s+[A-Z][a-z]+)*)\s*:?\s*(\d+(?:\.\d+)?)\s*([a-z\/]+)\s*(?:\(([^)]+)\))?/gi` -/
def labPat1 : RE :=
  seqs [.group 1 capWordsRE, wsStar, .opt (chr ':'), wsStar, .group 2 numRE,
        wsStar, unitsRE, wsStar, refRangeOptRE]

/-- Lab pattern 2 (named analytes):
`/(Hb|Hgb|Hemoglobin|WBC|RBC|Platelet|Glucose|Cholesterol|Creatinine|BUN|Sodium|Potassium|Chloride)\s*:?\s*(\d+(?:\.\d+)?)\s*([a-z\/]+)\s*(?:\(([^)]+)\))?/gi` -/
def labPat2 : RE :=
  seqs [.group 1 (alts [lstr "Hb", lstr "Hgb", lstr "Hemoglobin", lstr "WBC",
          lstr "RBC", lstr "Platelet", lstr "Glucose", lstr "Cholesterol",
          lstr "Creatinine", lstr "BUN", lstr "Sodium", lstr "Potassium",
          lstr "Chloride"]),
        wsStar, .opt (chr ':'), wsStar, .group 2 numRE, wsStar, unitsRE,
        wsStar, refRangeOptRE]

/-- `([A-Z][a-z]+(?:\s+[a-z]+)*)` — diagnosis phrase capture. -/
def dxPhraseRE : RE :=
  .group 1 (seqs [upperI, plus lowerI, .star (seqs [wsPlus, plus lowerI])])

/-- Diagnosis pattern 1: `/(?:diagnosis|dx|condition)\s*:?\s*([A-Z][a-z]+(?:\s+[a-z]+)*)/gi` -/
def dxPat1 : RE :=
  seqs [alts [lstr "diagnosis", lstr "dx", lstr "condition"],
        wsStar, .opt (chr ':'), wsStar, dxPhraseRE]

/-- Diagnosis pattern 2: `/(?:impression|assessment)\s*:?\s*([A-Z][a-z]+(?:\s+[a-z]+)*)/gi` -/
def dxPat2 : RE :=
  seqs [alts [lstr "impression", lstr "assessment"],
        wsStar, .opt (chr ':'), wsStar, dxPhraseRE]

/-- Vitals pattern `temperature`: `/(?:temp|temperature)\s*:?\s*(\d+(?:\.\d+)?)\s*[Â°]?[fFcC]/gi` -/
def tempPat : RE :=
  seqs [alts [lstr "temp", lstr "temperature"], wsStar, .opt (chr ':'), wsStar,
        .group 1 numRE, wsStar, .opt (.cls (fun c => c = 'Â' || c = '°')),
        .cls (fun c => c.toLower = 'f' || c.toLower = 'c')]

/-- Vitals pattern `bloodPressure`: `/(?:bp|blood\s+pressure)\s*:?\s*(\d+)\/(\d+)/gi` -/
def bpPat : RE :=
  seqs [alts [lstr "bp", seqs [lstr "blood", wsPlus, lstr "pressure"]],
        wsStar, .opt (chr ':'), wsStar, .group 1 (plus digitC), chr '/',
        .group 2 (plus digitC)]

/-- Vitals pattern `heartRate`: `/(?:hr|heart\s+rate|pulse)\s*:?\s*(\d+)\s*bpm?/gi` -/
def hrPat : RE :=
  seqs [alts [lstr "hr", seqs [lstr "heart", wsPlus, lstr "rate"], lstr "pulse"],
        wsStar, .opt (chr ':'), wsStar, .group 1 (plus digitC), wsStar,
        lchr 'b', lchr 'p', .opt (lchr 'm')]

/-- Vitals pattern `respiratoryRate`: `/(?:rr|respiratory\s+rate|resp)\s*:?\s*(\d+)/gi` -/
def rrPat : RE :=
  seqs [alts [lstr "rr", seqs [lstr "respiratory", wsPlus, lstr "rate"], lstr "resp"],
        wsStar, .opt (chr ':'), wsStar, .group 1 (plus digitC)]

/-- Vitals pattern `oxygenSaturation`: `/(?:spo2|o2\s+sat|oxygen\s+saturation)\s*:?\s*(\d+)%/gi` -/
def spo2Pat : RE :=
  seqs [alts [lstr "spo2", seqs [lstr "o2", wsPlus, lstr "sat"],
              seqs [lstr "oxygen", wsPlus, lstr "saturation"]],
        wsStar, .opt (chr ':'), wsStar, .group 1 (plus digitC), chr '%']

/-- `String.prototype.trim` (kernel-reducible, over the same whitespace set
as the matcher's `\s`). -/
def jsTrim (s : String) : String :=
  String.mk (((s.toList.dropWhile isWsp).reverse.dropWhile isWsp).reverse)

/-- `String.prototype.toLowerCase` for ASCII. -/
def jsToLower (s : String) : String := String.mk (s.toList.map Char.toLower)

/-- `String.prototype.startsWith`. -/
def jsStartsWith (s pre : String) : Bool :=
  s.toList.take pre.toList.length == pre.toList

/-- `String.prototype.split` on a single-character class: JS keeps empty
segments, and splitting the empty string yields `[""]`. -/
def splitOnPred (p : Char → Bool) : List Char → List (List Char)
  | [] => [[]]
  | c :: rest =>
    let r := splitOnPred p rest
    if p c then [] :: r
    else
      match r with
      | [] => [[c]]
      | h :: t => (c :: h) :: t

def jsSplit (s : String) (p : Char → Bool) : List String :=
  (splitOnPred p s.toList).map String.mk

/-- JS string truthiness applied to an optional capture: `match[i] || null`
maps an absent group or an empty capture to `null`. -/
def truthyStr : Option String → Option String
  | some s => if s = "" then none else some s
  | none => none

/-- `String.prototype.includes`. -/
def strContains (s pat : String) : Bool :=
  (List.range (s.toList.length + 1)).any
    (fun i => (s.toList.drop i).take pat.toList.length == pat.toList)

/-- `parseFloat` on a string of shape `\d+(\.\d+)?` (the only shape the
extractor feeds it). -/
def digitsToNat (l : List Char) : Nat :=
  l.foldl (fun a c => a * 10 + (c.toNat - Char.toNat '0')) 0

def parseDec (s : String) : ℚ :=
  match jsSplit s (fun c => c = '.') with
  | [i] => mkRat (digitsToNat i.toList) 1
  | [i, f] =>
    mkRat (digitsToNat i.toList * 10 ^ f.toList.length + digitsToNat f.toList)
      (10 ^ f.toList.length)
  | _ => 0

/-- `String.prototype.padStart(2, '0')`. -/
def padStart2 (s : String) : String :=
  if s.length < 2 then String.mk (List.replicate (2 - s.length) '0') ++ s else s

/-- `dateStr.split(/[\/\-]/)` — split on every `/` or `-`. -/
def splitDateParts (s : String) : List String :=
  jsSplit s (fun c => c = '/' || c = '-')

/-- `normalizeDate` from medicalExtraction.js: three parts are read as
month, day, year; a 2-character year gets `20` prepended; month and day are
left-padded to width 2; anything that does not split into exactly three
parts is returned unchanged. -/
def normalizeDate (dateStr : String) : String :=
  match splitDateParts dateStr with
  | [month, day, year] =>
    let fullYear := if year.length = 2 then "20" ++ year else year
    fullYear ++ "-" ++ padStart2 month ++ "-" ++ padStart2 day
  | _ => dateStr

/-- `extractRoute`: first entry of the fixed route vocabulary that occurs as
a substring of the lowercased matched text. -/
def extractRoute (text : String) : Option String :=
  ["oral", "iv", "im", "sc", "topical", "inhalation"].find?
    (fun route => strContains (jsToLower text) route)

inductive LabFlag where
  | low : LabFlag
  | high : LabFlag
  | normal : LabFlag
deriving DecidableEq, Repr

/-- The range regex of `determineLabFlag`:
`/(\d+(?:\.\d+)?)\s*-\s*(\d+(?:\.\d+)?)/` (no flags). -/
def rangeRE : RE :=
  seqs [.group 1 numRE, wsStar, chr '-', wsStar, .group 2 numRE]

/-- The numeric low/high bounds recovered from a reference-range string, if
the range regex matches. -/
def parseRefRange (r : String) : Option (ℚ × ℚ) :=
  match jsExec rangeRE r with
  | none => none
  | some (_, caps) =>
    match getCap caps 1, getCap caps 2 with
    | some a, some b => some (parseDec a, parseDec b)
    | _, _ => none

/-- `determineLabFlag(value, refRange)`: `normal` for a missing (or falsy,
i.e. empty) range or an unparseable one; otherwise `low` when
`value < low`, then `high` when `value > high`, else `normal`. -/
def determineLabFlag (value : ℚ) (refRange : Option String) : LabFlag :=
  match refRange with
  | none => .normal
  | some r =>
    if r = "" then .normal
    else
      match parseRefRange r with
      | none => .normal
      | some (low, high) =>
        if value < low then .low else if high < value then .high else .normal

structure PatientInfo where
  name : Option String
  dob : Option String
  sex : Option String
  id : Option String
deriving DecidableEq, Repr

structure Medication where
  name : String
  dose : String
  frequency : Option String
  route : Option String
  duration : Option String
  raw_text : String
  confidence : ℚ
deriving DecidableEq, Repr

structure Diagnosis where
  text : String
  icd10 : Option String
  confidence : ℚ
deriving DecidableEq, Repr

structure Lab where
  name : String
  value : ℚ
  units : String
  ref_range : Option String
  flag : LabFlag
  confidence : ℚ
deriving DecidableEq, Repr

structure Vitals where
  temperature : Option String
  bloodPressure : Option String
  heartRate : Option String
  respiratoryRate : Option String
  oxygenSaturation : Option String
deriving DecidableEq, Repr

structure BaselineRecord where
  patient : PatientInfo
  medications : List Medication
  diagnoses : List Diagnosis
  labs : List Lab
  vitals : Vitals
  extraction_timestamp : String
  confidence_overall : ℚ
deriving DecidableEq, Repr

/-- The `for (const pattern of patterns.X) { const match = pattern.exec(text);
if (match && match[1]) { … break; } }` loop shape of `extractPatientInfo`:
first pattern whose match has a truthy group 1 wins. -/
def firstCap1 : List RE → String → Option String
  | [], _ => none
  | p :: ps, text =>
    match jsExec p text with
    | some (_, caps) =>
      match truthyStr (getCap caps 1) with
      | some v => some v
      | none => firstCap1 ps text
    | none => firstCap1 ps text

/-- `extractPatientInfo` from medicalExtraction.js. -/
def extractPatientInfo (text : String) : PatientInfo :=
  { name := (firstCap1 [namePat1, namePat2] text).map jsTrim,
    dob := (firstCap1 [dobPat1, dobPat2] text).map normalizeDate,
    sex := (firstCap1 [sexPat] text).map
      (fun v => if jsStartsWith (jsToLower v) "m" then "M" else "F"),
    id := (firstCap1 [idPat] text).map jsTrim }

/-- One medication pattern's matches, filtered by the
`if (medication.name && medication.dose)` acceptance check. -/
def medsFromPat (pat : RE) (text : String) : List Medication :=
  (jsMatchAll pat text).filterMap (fun m =>
    match truthyStr (getCap m.2 1), truthyStr (getCap m.2 2) with
    | some n, some d =>
      some { name := n, dose := d,
             frequency := truthyStr (getCap m.2 3),
             route := extractRoute m.1,
             duration := truthyStr (getCap m.2 4),
             raw_text := m.1,
             confidence := mkRat 8 10 }
    | _, _ => none)

/-- `extractMedications`: the three patterns run in order, each with a full
`g`-flag scan, accepted matches appended in encounter order. -/
def extractMedications (text : String) : List Medication :=
  medsFromPat medPat1 text ++ medsFromPat medPat2 text ++ medsFromPat medPat3 text

/-- One lab pattern's matches (no acceptance filter in the source: every
match is pushed). -/
def labsFromPat (pat : RE) (text : String) : List Lab :=
  (jsMatchAll pat text).map (fun m =>
    let value := parseDec ((getCap m.2 2).getD "")
    let refRange := truthyStr (getCap m.2 4)
    { name := jsTrim ((getCap m.2 1).getD ""),
      value := value,
      units := jsTrim ((getCap m.2 3).getD ""),
      ref_range := refRange,
      flag := determineLabFlag value refRange,
      confidence := mkRat 85 100 })

/-- `extractLabResults`. -/
def extractLabResults (text : String) : List Lab :=
  labsFromPat labPat1 text ++ labsFromPat labPat2 text

/-- `extractDiagnoses`. -/
def extractDiagnoses (text : String) : List Diagnosis :=
  ((jsMatchAll dxPat1 text) ++ (jsMatchAll dxPat2 text)).map (fun m =>
    { text := jsTrim ((getCap m.2 1).getD ""),
      icd10 := none,
      confidence := mkRat 7 10 })

/-- `extractVitals`: one `exec` per vital sign; blood pressure is rendered
as a `sys/dia` pair. -/
def extractVitals (text : String) : Vitals :=
  { temperature := (jsExec tempPat text).map (fun m => (getCap m.2 1).getD ""),
    bloodPressure := (jsExec bpPat text).map
      (fun m => (getCap m.2 1).getD "" ++ "/" ++ (getCap m.2 2).getD ""),
    heartRate := (jsExec hrPat text).map (fun m => (getCap m.2 1).getD ""),
    respiratoryRate := (jsExec rrPat text).map (fun m => (getCap m.2 1).getD ""),
    oxygenSaturation := (jsExec spo2Pat text).map (fun m => (getCap m.2 1).getD "") }

/-- `extractMedicalData`: the main extraction function.  The source stamps
the record with `new Date().toISOString()`; the clock is an explicit `now`
parameter here.  The regex pipeline cannot throw, so the source's
`try/catch` re-wrap is dead code and the function is total. -/
def extractMedicalData (text : String) (now : String) : BaselineRecord :=
  { patient := extractPatientInfo text,
    medications := extractMedications text,
    diagnoses := extractDiagnoses text,
    labs := extractLabResults text,
    vitals := extractVitals text,
    extraction_timestamp := now,
    confidence_overall := mkRat 3 4 }

/-! ## JavaScript object model for the LLM-integration layer

`validateAndSanitizeResult`, the provider functions and the route handler
manipulate plain JS objects whose keys can be absent, `null`, or a value,
and whose defaulting uses JS truthiness (`x || y`).  `JVal` models one such
field.  (A present key holding `undefined` behaves like an absent key for
`||` — JSON-derived objects, the only ones flowing here, cannot contain
`undefined`, so the collapse is faithful.) -/

inductive JVal (α : Type) where
  | missing : JVal α
  | jnull : JVal α
  | val : α → JVal α
deriving DecidableEq, Repr

/-- `x || d` where any actual value of the type is truthy (arrays and
objects — `[]` and `{}` are truthy in JS). -/
def jOr {α : Type} (j : JVal α) (d : α) : α :=
  match j with
  | .val a => a
  | _ => d

/-- `x || d` for strings: the empty string is falsy. -/
def jOrStr (j : JVal String) (d : String) : String :=
  match j with
  | .val s => if s = "" then d else s
  | _ => d

/-- `x || d` for numbers: `0` is falsy. -/
def jOrNum (j : JVal ℚ) (d : ℚ) : ℚ :=
  match j with
  | .val x => if x = 0 then d else x
  | _ => d

/-- Object-spread override for one key: `{...base, ...over}` keeps `base`'s
binding only where `over` has no own key (explicit `null` is a present key
and overrides). -/
def jIfPresent {α : Type} (over base : JVal α) : JVal α :=
  match over with
  | .missing => base
  | x => x

/-- A medication/lab/diagnosis item as the sanitizer sees it: a `confidence`
key plus arbitrary other keys, which the sanitizer's
`{...item, confidence: …}` spread passes through untouched (kept opaque in
`payload`). -/
structure JItem where
  payload : String
  confidence : JVal ℚ
deriving DecidableEq, Repr

/-- A raw LLM result / reconciler value: one JS object over the schema keys
that the integration layer reads or writes. -/
structure JObj where
  patient : JVal PatientInfo
  medications : JVal (List JItem)
  diagnoses : JVal (List JItem)
  labs : JVal (List JItem)
  impression : JVal String
  recommendations : JVal (List String)
  confidence_overall : JVal ℚ
  source_pages : JVal (List String)
  timestamps : JVal (List (String × String))
  notes : JVal (List String)
  patient_summary : JVal String
  llm_provider : JVal String
  llm_model : JVal String
  analysis_timestamp : JVal String
  error : JVal String
deriving DecidableEq, Repr

/-- The object with no own keys, `{}`. -/
def emptyJObj : JObj :=
  { patient := .missing, medications := .missing, diagnoses := .missing,
    labs := .missing, impression := .missing, recommendations := .missing,
    confidence_overall := .missing, source_pages := .missing,
    timestamps := .missing, notes := .missing, patient_summary := .missing,
    llm_provider := .missing, llm_model := .missing,
    analysis_timestamp := .missing, error := .missing }

/-- The empty patient object `{}`. -/
def emptyPatient : PatientInfo := { name := none, dob := none, sex := none, id := none }

/-- `Math.max(a, b)` (neither argument is NaN on any path here). -/
def jsMax (a b : ℚ) : ℚ := if a < b then b else a

/-- `Math.min(a, b)`. -/
def jsMin (a b : ℚ) : ℚ := if b < a then b else a

/-- `Math.min(Math.max(x, 0), 1)`. -/
def clamp01 (x : ℚ) : ℚ := jsMin (jsMax x 0) 1

def defaultPatientSummary : String :=
  "Your medical document has been processed. Please consult with a healthcare provider for proper interpretation. This is not medical advice."

/-! ## server/utils/llmIntegration.js -/

/-- The explicit key/value part of the `sanitized` object literal in
`validateAndSanitizeResult`, before the trailing `...result` spread:
field-by-field defaulting `result.f || baseline.f || safe-default` and the
clamp of `confidence_overall`. -/
def sanitizedDefaults (result baseline : JObj) : JObj :=
  { patient := .val (jOr result.patient (jOr baseline.patient emptyPatient)),
    medications := .val (jOr result.medications (jOr baseline.medications [])),
    diagnoses := .val (jOr result.diagnoses (jOr baseline.diagnoses [])),
    labs := .val (jOr result.labs (jOr baseline.labs [])),
    impression := .val (jOrStr result.impression "No clinical impression available."),
    recommendations := .val (jOr result.recommendations []),
    confidence_overall := .val (clamp01 (jOrNum result.confidence_overall (mkRat 1 2))),
    source_pages := .val (jOr result.source_pages []),
    timestamps := .val (jOr result.timestamps []),
    notes := .val (jOr result.notes []),
    patient_summary := .val (jOrStr result.patient_summary defaultPatientSummary),
    llm_provider := .missing, llm_model := .missing,
    analysis_timestamp := .missing, error := .missing }

/-- The trailing `...result` spread of that object literal, key by key. -/
def spreadJObj (base over : JObj) : JObj :=
  { patient := jIfPresent over.patient base.patient,
    medications := jIfPresent over.medications base.medications,
    diagnoses := jIfPresent over.diagnoses base.diagnoses,
    labs := jIfPresent over.labs base.labs,
    impression := jIfPresent over.impression base.impression,
    recommendations := jIfPresent over.recommendations base.recommendations,
    confidence_overall := jIfPresent over.confidence_overall base.confidence_overall,
    source_pages := jIfPresent over.source_pages base.source_pages,
    timestamps := jIfPresent over.timestamps base.timestamps,
    notes := jIfPresent over.notes base.notes,
    patient_summary := jIfPresent over.patient_summary base.patient_summary,
    llm_provider := jIfPresent over.llm_provider base.llm_provider,
    llm_model := jIfPresent over.llm_model base.llm_model,
    analysis_timestamp := jIfPresent over.analysis_timestamp base.analysis_timestamp,
    error := jIfPresent over.error base.error }

/-- The per-item confidence pass, e.g.
`if (sanitized.medications) sanitized.medications = sanitized.medications.map(med =>
({...med, confidence: Math.min(Math.max(med.confidence || 0.5, 0), 1)}))` —
the truthiness guard skips a `null` (or absent) field. -/
def clampItems : JVal (List JItem) → JVal (List JItem)
  | .val l =>
    .val (l.map (fun it =>
      { it with confidence := .val (clamp01 (jOrNum it.confidence (mkRat 1 2))) }))
  | x => x

/-- `validateAndSanitizeResult(result, baselineData)` from llmIntegration.js:
the defaults literal, then the trailing `...result` spread, then the three
guarded per-item clamp passes (medications, labs, diagnoses, in that order). -/
def validateAndSanitizeResult (result baseline : JObj) : JObj :=
  let s := spreadJObj (sanitizedDefaults result baseline) result
  { s with
    medications := clampItems s.medications,
    labs := clampItems s.labs,
    diagnoses := clampItems s.diagnoses }

/-! ## server/utils/textExtraction.js

The two sub-extractors do I/O; each is modelled by its outcome: `some text`
when the call would return extracted text, `none` when it would throw. -/

inductive ExtractionMethod where
  | pdfParse : ExtractionMethod
  | tesseractOcr : ExtractionMethod
deriving DecidableEq, Repr

structure TextResult where
  text : String
  extractionMethod : ExtractionMethod
deriving DecidableEq, Repr

/-- `extractTextFromPDF` tags a successful native parse with `'pdf-parse'`. -/
def extractTextFromPDF (native : Option String) : Option TextResult :=
  native.map (fun t => { text := t, extractionMethod := .pdfParse })

/-- `extractTextWithOCR` tags a successful OCR run with `'tesseract-ocr'`. -/
def extractTextWithOCR (ocr : Option String) : Option TextResult :=
  ocr.map (fun t => { text := t, extractionMethod := .tesseractOcr })

/-- `extractText(filePath, forceOCR)`: `forceOCR` goes straight to OCR;
otherwise native parsing is tried first and accepted when its trimmed text
has at least `minTextLength = 50` characters, with OCR as the fallback for
short text or a native throw.  `none` models the terminal
`'Failed to extract text from PDF using both methods'` throw.  (When an OCR
attempt inside the `try` throws, the `catch` retries OCR once more; the
outcome parameter is deterministic, so the retry returns the same value and
is dropped here.) -/
def extractText (native ocr : Option String) (forceOCR : Bool) : Option TextResult :=
  if forceOCR then extractTextWithOCR ocr
  else
    match extractTextFromPDF native with
    | some pdfResult =>
      if 50 ≤ (jsTrim pdfResult.text).length then some pdfResult
      else extractTextWithOCR ocr
    | none => extractTextWithOCR ocr

/-! ## Providers and configuration (server/config.js, llmIntegration.js) -/

inductive Provider where
  | openai : Provider
  | llama : Provider
deriving DecidableEq, Repr

def providerTag : Provider → String
  | .openai => "openai"
  | .llama => "llama"

/-- The configuration fields the analysis path reads. -/
structure Config where
  openaiEnabled : Bool
  openaiModel : String
  llamaEnabled : Bool
  llamaModel : String
  allowExternalPHI : Bool
  encryptFiles : Bool
deriving DecidableEq, Repr

/-- `analyzeWithOpenAI`: checks `config.security.allowExternalPHI`, then the
client configuration, then performs the API call (`transport`, `none` for a
transport/API failure) and the trusted structured-mode JSON parse
(`parseJson`, `none` when the content is not valid JSON).  Every failure is
re-thrown by the `catch` as `'Failed to analyze with OpenAI'`. -/
def analyzeWithOpenAI (cfg : Config) (transport : Option String)
    (parseJson : String → Option JObj) (now : String) : Except String JObj :=
  if ¬ cfg.allowExternalPHI then .error "Failed to analyze with OpenAI"
  else if ¬ cfg.openaiEnabled then .error "Failed to analyze with OpenAI"
  else
    match transport with
    | none => .error "Failed to analyze with OpenAI"
    | some content =>
      match parseJson content with
      | none => .error "Failed to analyze with OpenAI"
      | some result =>
        .ok { result with llm_provider := .val "openai",
                          llm_model := .val cfg.openaiModel,
                          analysis_timestamp := .val now }

/-- `content.match(/\{[\s\S]*\}/)`: the greedy span from the first opening
brace to the last closing brace after it, if any. -/
def jsonSpan (content : String) : Option String :=
  let cs := content.toList
  match cs.findIdx? (fun c => c = '{') with
  | none => none
  | some i =>
    match cs.reverse.findIdx? (fun c => c = '}') with
    | none => none
    | some rj =>
      let j := cs.length - 1 - rj
      if i < j then some (String.mk ((cs.drop i).take (j - i + 1))) else none

/-- The fallback object `analyzeWithLlama` constructs when its response
contains no JSON-shaped span or the span fails to parse. -/
def llamaFallback (baseline : JObj) : JObj :=
  { emptyJObj with
    patient := .val (jOr baseline.patient emptyPatient),
    medications := .val (jOr baseline.medications []),
    diagnoses := .val (jOr baseline.diagnoses []),
    labs := .val (jOr baseline.labs []),
    impression := .val "Analysis completed using local LLM. Please review results carefully.",
    recommendations := .val [],
    confidence_overall := .val (mkRat 6 10),
    notes := .val ["LLM response could not be parsed as JSON. Using baseline extraction."],
    patient_summary := .val "Your medical document has been processed. Please consult with a healthcare provider for proper interpretation of these results. This is not medical advice." }

/-- `analyzeWithLlama`: configuration check, transport call, then the soft
JSON recovery — an unparseable response degrades to `llamaFallback` instead
of throwing; only the configuration check and the transport failure reach
the `catch` and become `'Failed to analyze with Llama'`. -/
def analyzeWithLlama (cfg : Config) (baseline : JObj) (transport : Option String)
    (parseJson : String → Option JObj) (now : String) : Except String JObj :=
  if ¬ cfg.llamaEnabled then .error "Failed to analyze with Llama"
  else
    match transport with
    | none => .error "Failed to analyze with Llama"
    | some content =>
      let result :=
        match jsonSpan content with
        | some span =>
          match parseJson span with
          | some r => r
          | none => llamaFallback baseline
        | none => llamaFallback baseline
      .ok { result with llm_provider := .val "llama",
                        llm_model := .val cfg.llamaModel,
                        analysis_timestamp := .val now }

/-- The object `analyzeWithLLM`'s own `catch` returns
(`{...baselineData, impression: …, error: error.message}`). -/
def llmErrorFallback (baseline : JObj) (provider : Provider) (msg now : String) : JObj :=
  { baseline with
    impression := .val "LLM analysis failed. Results based on rule-based extraction only.",
    recommendations := .val [],
    confidence_overall := .val (mkRat 1 2),
    notes := .val ["LLM analysis failed: " ++ msg],
    patient_summary := .val "Your medical document has been processed using basic extraction methods. Please consult with a healthcare provider for proper interpretation. This is not medical advice.",
    llm_provider := .val (providerTag provider),
    analysis_timestamp := .val now,
    error := .val msg }

/-- `analyzeWithLLM(extractedText, baselineData, provider)`: dispatch on the
provider tag, sanitize a successful result, and convert any thrown error —
including every hard failure of the openai path — into `llmErrorFallback`.
This function never throws. -/
def analyzeWithLLM (cfg : Config) (provider : Provider) (baseline : JObj)
    (openaiTransport llamaTransport : Option String)
    (parseJson : String → Option JObj) (now : String) : JObj :=
  let attempt : Except String JObj :=
    match provider with
    | .openai => analyzeWithOpenAI cfg openaiTransport parseJson now
    | .llama => analyzeWithLlama cfg baseline llamaTransport parseJson now
  match attempt with
  | .ok result => validateAndSanitizeResult result baseline
  | .error msg => llmErrorFallback baseline provider msg now

/-! ## server/routes/analyze.js and server/routes/upload.js -/

inductive Status where
  | uploaded : Status
  | processing : Status
  | completed : Status
  | failed : Status
deriving DecidableEq, Repr

/-- The persisted job record fields the analysis path reads or writes. -/
structure JobRecord where
  status : Status
  model : Option Provider
  error : Option String
  result : Option JObj
  consentGiven : Bool
deriving DecidableEq, Repr

/-- The HTTP outcome of POST /api/analyze/:jobId. -/
inductive AnalyzeResponse where
  /-- 400 `'Invalid job status'`. -/
  | invalidStatus : AnalyzeResponse
  /-- 200 `'Analysis completed successfully'`. -/
  | completedOk : AnalyzeResponse
  /-- 500 `'Analysis failed'` from the inner catch (job persisted `failed`). -/
  | analysisFailed : AnalyzeResponse
  /-- 500 `'Analysis request failed'` from the outer catch (the catch writes
  nothing back to the job record). -/
  | requestFailed : AnalyzeResponse
deriving DecidableEq, Repr

/-- POST /api/analyze/:jobId after jobId/body validation and record load:
the status guard; then the `status = 'processing'` write (persisted by
`await fs.writeJson` *before* any configuration check); then the provider
availability and external-PHI checks, whose throws land in the outer catch,
which answers 500 without touching the record again; then decryption
(by outcome), text extraction, rule extraction, LLM analysis and assembly
inside the inner try, whose failures persist `failed` + `error`.

`baseline` stands for `extractMedicalData(textResult.text)` (a total,
non-throwing call — established separately), injected into the JS-object
world.  The assembled `finalResult` is tracked on the fields the claims
observe: it copies the LLM result's fields and applies the
`notes: llmResult.notes || []` defaulting; the job-metadata keys it adds
(`jobId`, timestamps, file metadata, vitals, pages) are outside `JObj`. -/
def analyzeHandler (cfg : Config) (job : JobRecord) (model : Provider)
    (optionsOcr : Bool) (decryptOk : Bool) (native ocr : Option String)
    (baseline : JObj) (openaiTransport llamaTransport : Option String)
    (parseJson : String → Option JObj) (now : String) :
    AnalyzeResponse × JobRecord :=
  if job.status ≠ .uploaded then (.invalidStatus, job)
  else
    let job1 : JobRecord := { job with status := .processing, model := some model }
    if model = .openai ∧ ¬ cfg.openaiEnabled then (.requestFailed, job1)
    else if model = .llama ∧ ¬ cfg.llamaEnabled then (.requestFailed, job1)
    else if model = .openai ∧ ¬ cfg.allowExternalPHI then (.requestFailed, job1)
    else if cfg.encryptFiles ∧ ¬ decryptOk then (.requestFailed, job1)
    else
      match extractText native ocr optionsOcr with
      | none =>
        (.analysisFailed,
         { job1 with status := .failed,
                     error := some "Failed to extract text from PDF using both methods" })
      | some _textResult =>
        let llmResult :=
          analyzeWithLLM cfg model baseline openaiTransport llamaTransport parseJson now
        let finalResult : JObj := { llmResult with notes := .val (jOr llmResult.notes []) }
        (.completedOk, { job1 with status := .completed, result := some finalResult })

/-- POST /api/upload/pdf, reduced to the consent guard and record creation:
a job record (status `uploaded`, `consentGiven: true`) is created only when
the multipart field `consent` equals the string `'true'`; otherwise the
request is rejected with 400 `'Consent required'` and no record exists. -/
def uploadCreatesJob (consentParam : String) : Option JobRecord :=
  if consentParam ≠ "true" then none
  else some { status := .uploaded, model := none, error := none,
              result := none, consentGiven := true }

/-- The analysis-stage provider/PHI gate, in the spec's
`isAllowed(provider, allowExternalFlag, consentGiven)` shape: the
conjunction of the checks at analyze.js lines 77–87 (provider configured;
`allowExternalPHI` for openai) together with the identical re-checks inside
`analyzeWithOpenAI`/`analyzeWithLlama`.  The job's `consentGiven` flag is an
input of the spec's gate but is read nowhere on the analysis path, which is
why the parameter is unused. -/
def phiGateAllows (provider : Provider) (providerEnabled : Bool)
    (allowExternalPHI : Bool) (consentGiven : Bool) : Bool :=
  match provider with
  | .openai => providerEnabled && allowExternalPHI
  | .llama => providerEnabled

/-! ## The concurrent status guard (analyze.js lines 58–72)

`const jobRecord = await fs.readJson(…)` … status check …
`await fs.writeJson(…)` is a read-then-write across suspension points: the
check runs on the copy obtained by the read.  Two concurrent requests for
the same job are modelled as two two-step programs `[read, checkWrite]`
over the shared persisted status; a schedule interleaves their steps.
`checkWrite` is the synchronous block from the status check to the write of
`'processing'` (no other request's write can land between a request's read
and its check changing that request's local copy, so fusing check and write
only *under*-approximates the interleavings; the racy schedule below needs
just the read/write split). -/

inductive RaceAct where
  | read : RaceAct
  | checkWrite : RaceAct
deriving DecidableEq, Repr

structure RaceState where
  /-- The persisted job status. -/
  store : Status
  /-- Request A's in-memory `jobRecord.status` copy, once read. -/
  localA : Option Status
  /-- Request B's in-memory copy. -/
  localB : Option Status
  /-- Request A's outcome: `some true` = proceeded to `processing`,
  `some false` = rejected with the invalid-status error. -/
  resA : Option Bool
  /-- Request B's outcome. -/
  resB : Option Bool
deriving DecidableEq, Repr

def raceStep (st : RaceState) (isA : Bool) (act : RaceAct) : RaceState :=
  match act with
  | .read =>
    if isA then { st with localA := some st.store }
    else { st with localB := some st.store }
  | .checkWrite =>
    if isA then
      match st.localA with
      | some .uploaded => { st with store := .processing, resA := some true }
      | some _ => { st with resA := some false }
      | none => st
    else
      match st.localB with
      | some .uploaded => { st with store := .processing, resB := some true }
      | some _ => { st with resB := some false }
      | none => st

def runRace (sched : List (Bool × RaceAct)) (st : RaceState) : RaceState :=
  sched.foldl (fun s step => raceStep s step.1 step.2) st

def raceInit : RaceState :=
  { store := .uploaded, localA := none, localB := none, resA := none, resB := none }

/-- The interleaved schedule: both requests read before either writes. -/
def racySchedule : List (Bool × RaceAct) :=
  [(true, .read), (false, .read), (true, .checkWrite), (false, .checkWrite)]

/-- The serialized schedule: request A completes before request B starts. -/
def sequentialSchedule : List (Bool × RaceAct) :=
  [(true, .read), (true, .checkWrite), (false, .read), (false, .checkWrite)]

/-! ## Claim theorems -/

/-- A raw LLM result carrying an out-of-range `confidence_overall` and an
explicit `medications: null` — exactly the inputs C1 quantifies over. -/
def c1RawResult : JObj :=
  { emptyJObj with confidence_overall := .val 5, medications := .jnull }

/-- C1: refuted as stated — the trailing `...result` spread in
`validateAndSanitizeResult` re-applies the raw value over the clamped and
defaulted fields, so a raw result with `confidence_overall: 5` leaves the
output at `5` (outside `[0,1]`), and a raw `medications: null` survives to
the output (the per-item clamp pass is skipped by its truthiness guard).
The claim's guarantee fails on these inputs even though the function's own
stated purpose is to enforce it. -/
theorem c1_spread_defeats_sanitization :
    (validateAndSanitizeResult c1RawResult emptyJObj).confidence_overall = .val 5 ∧
    ¬ ((5 : ℚ) ≤ 1) ∧
    (validateAndSanitizeResult c1RawResult emptyJObj).medications = .jnull ∧
    (validateAndSanitizeResult emptyJObj emptyJObj).confidence_overall
      = .val (mkRat 1 2) ∧
    (validateAndSanitizeResult emptyJObj emptyJObj).medications = .val [] := by
  decide

/-- External-PHI processing globally disabled, both providers configured. -/
def cfgExternalOff : Config :=
  { openaiEnabled := true, openaiModel := "gpt-4",
    llamaEnabled := true, llamaModel := "llama3",
    allowExternalPHI := false, encryptFiles := false }

/-- Llama unconfigured (no `LLAMA_API_URL`), openai configured and allowed. -/
def cfgLlamaOff : Config :=
  { openaiEnabled := true, openaiModel := "gpt-4",
    llamaEnabled := false, llamaModel := "llama3",
    allowExternalPHI := true, encryptFiles := false }

/-- A freshly-uploaded job record. -/
def jobUploaded : JobRecord :=
  { status := .uploaded, model := none, error := none, result := none,
    consentGiven := true }

/-- C2: refuted as stated — the handler persists `status = 'processing'`
*before* the provider-availability and external-PHI checks; when a check
throws, the outer catch answers 500 without touching the record, so the
persisted status is `processing`, not `uploaded`.  Shown for both
configuration errors: openai requested with external PHI processing
disabled, and llama requested while unconfigured. -/
theorem c2_processing_persisted_despite_config_error :
    ((analyzeHandler cfgExternalOff jobUploaded .openai false true none none
        emptyJObj none none (fun _ => none) "now").1 = .requestFailed ∧
     (analyzeHandler cfgExternalOff jobUploaded .openai false true none none
        emptyJObj none none (fun _ => none) "now").2.status = .processing ∧
     ¬ (analyzeHandler cfgExternalOff jobUploaded .openai false true none none
        emptyJObj none none (fun _ => none) "now").2.status = .uploaded) ∧
    ((analyzeHandler cfgLlamaOff jobUploaded .llama false true none none
        emptyJObj none none (fun _ => none) "now").1 = .requestFailed ∧
     (analyzeHandler cfgLlamaOff jobUploaded .llama false true none none
        emptyJObj none none (fun _ => none) "now").2.status = .processing) := by
  decide

/-- C4: refuted as stated — the status guard is a read-then-write across
`await` points, not a compare-and-swap.  Under the interleaved schedule
(both requests read the record before either writes) both requests observe
`uploaded` and both proceed to `processing`; only the fully serialized
schedule produces the exactly-one-succeeds outcome the claim requires for
*every* interleaving. -/
theorem c4_race_admits_double_processing :
    ((runRace racySchedule raceInit).resA = some true ∧
     (runRace racySchedule raceInit).resB = some true ∧
     (runRace racySchedule raceInit).store = .processing) ∧
    ((runRace sequentialSchedule raceInit).resA = some true ∧
     (runRace sequentialSchedule raceInit).resB = some false) := by
  decide

/-- C6 counterexample: the extractor stamps `extraction_timestamp` with the
wall clock (`new Date().toISOString()`), so two runs on the same input
string at different instants return different records — the output is not a
pure function of the input string alone. -/
theorem c6_two_runs_differ_by_timestamp :
    extractMedicalData "" "2024-01-01T00:00:00.000Z"
      ≠ extractMedicalData "" "2024-01-02T00:00:00.000Z" := by
  decide

/-- C6: amended — apart from the clock-dependent `extraction_timestamp`
field, `extractMedicalData` is a total pure function of its input string:
every field of the record (patient, medications, diagnoses, labs, vitals,
overall confidence) is present by construction and agrees across runs at
different times, with the fixed overall confidence `0.75`; totality (no
exception on any string, including the empty string) holds because the
embedding is a total function. -/
theorem c6_deterministic_modulo_timestamp :
    ∀ (text t1 t2 : String),
      (extractMedicalData text t1).patient = (extractMedicalData text t2).patient ∧
      (extractMedicalData text t1).medications = (extractMedicalData text t2).medications ∧
      (extractMedicalData text t1).diagnoses = (extractMedicalData text t2).diagnoses ∧
      (extractMedicalData text t1).labs = (extractMedicalData text t2).labs ∧
      (extractMedicalData text t1).vitals = (extractMedicalData text t2).vitals ∧
      (extractMedicalData text t1).confidence_overall = mkRat 3 4 ∧
      (extractMedicalData text t1).extraction_timestamp = t1 :=
  fun _ _ _ => ⟨rfl, rfl, rfl, rfl, rfl, rfl, rfl⟩

/-- A native-parse text comfortably over the 50-character threshold. -/
def sampleLongText : String :=
  "Patient presents with a mild upper respiratory infection today."

/-- Both providers configured and external PHI processing allowed. -/
def cfgAllOn : Config :=
  { openaiEnabled := true, openaiModel := "gpt-4",
    llamaEnabled := true, llamaModel := "llama3",
    allowExternalPHI := true, encryptFiles := false }

/-- C7 counterexample: the claim requires
`isAllowed("external", true, false) = false`, but the analysis path never
reads the job's consent flag: the gate evaluates to `true` with
`consentGiven = false`, and the full handler run on a (hypothetical)
non-consenting job record with external processing globally allowed
proceeds all the way to `completed` rather than being rejected. -/
theorem c7_external_allowed_without_consent :
    phiGateAllows .openai true true false = true ∧
    (analyzeHandler cfgAllOn { jobUploaded with consentGiven := false } .openai
        false true (some sampleLongText) none emptyJObj (some "x")
        none (fun _ => some emptyJObj) "now").2.status = .completed := by
  decide

/-- C3 counterexample: with openai configured and external PHI processing
allowed, an openai API/transport failure does not make the job fail — the
handler run completes: final status `completed` (not `failed`), no `error`
persisted, and a result object written.  The claim's hard-fail half is
false: `analyzeWithLLM` catches every error of the external-provider path
and substitutes a baseline-derived fallback. -/
theorem c3_openai_failure_still_completes :
    (analyzeHandler cfgAllOn jobUploaded .openai false true (some sampleLongText)
        none emptyJObj none none (fun _ => none) "now").2.status = .completed ∧
    ¬ (analyzeHandler cfgAllOn jobUploaded .openai false true (some sampleLongText)
        none emptyJObj none none (fun _ => none) "now").2.status = .failed ∧
    (analyzeHandler cfgAllOn jobUploaded .openai false true (some sampleLongText)
        none emptyJObj none none (fun _ => none) "now").2.error = none ∧
    ¬ (analyzeHandler cfgAllOn jobUploaded .openai false true (some sampleLongText)
        none emptyJObj none none (fun _ => none) "now").2.result = none := by
  decide

/-- C3: amended — both provider-failure paths degrade softly; neither takes
the job to `failed`.  (1) Whenever the status guard and configuration
checks pass and text extraction succeeds, the job completes regardless of
any LLM outcome — in particular for every openai hard failure.  (2) Every
error of `analyzeWithOpenAI` is absorbed by `analyzeWithLLM` into
`llmErrorFallback`, which (3) keeps the baseline's medications, diagnoses
and labs verbatim and discloses the failure in `notes` (with the message
also under `error` inside the result object, not as a job failure).
(4) A llama response with no JSON-shaped span yields the in-provider
`llamaFallback`, which (5) is built from the baseline's fields and carries
the parse-failure disclosure note. -/
theorem c3_provider_failure_soft_fallback :
    ∀ (cfg : Config) (job : JobRecord) (model : Provider) (optionsOcr decryptOk : Bool)
      (native ocr oT lT : Option String) (baseline : JObj)
      (parseJson : String → Option JObj) (now content msg : String) (tr : TextResult),
      (job.status = .uploaded →
       ¬ (model = .openai ∧ ¬ cfg.openaiEnabled) →
       ¬ (model = .llama ∧ ¬ cfg.llamaEnabled) →
       ¬ (model = .openai ∧ ¬ cfg.allowExternalPHI) →
       ¬ (cfg.encryptFiles ∧ ¬ decryptOk) →
       extractText native ocr optionsOcr = some tr →
       (analyzeHandler cfg job model optionsOcr decryptOk native ocr baseline
          oT lT parseJson now).2.status = .completed ∧
       (analyzeHandler cfg job model optionsOcr decryptOk native ocr baseline
          oT lT parseJson now).2.error = job.error) ∧
      (analyzeWithOpenAI cfg oT parseJson now = .error msg →
        analyzeWithLLM cfg .openai baseline oT lT parseJson now
          = llmErrorFallback baseline .openai msg now) ∧
      ((llmErrorFallback baseline .openai msg now).medications = baseline.medications ∧
       (llmErrorFallback baseline .openai msg now).diagnoses = baseline.diagnoses ∧
       (llmErrorFallback baseline .openai msg now).labs = baseline.labs ∧
       (llmErrorFallback baseline .openai msg now).notes
         = .val ["LLM analysis failed: " ++ msg] ∧
       (llmErrorFallback baseline .openai msg now).error = .val msg) ∧
      (cfg.llamaEnabled = true → jsonSpan content = none →
        analyzeWithLlama cfg baseline (some content) parseJson now =
          .ok { llamaFallback baseline with
                llm_provider := .val "llama", llm_model := .val cfg.llamaModel,
                analysis_timestamp := .val now }) ∧
      ((llamaFallback baseline).medications = .val (jOr baseline.medications []) ∧
       (llamaFallback baseline).diagnoses = .val (jOr baseline.diagnoses []) ∧
       (llamaFallback baseline).labs = .val (jOr baseline.labs []) ∧
       (llamaFallback baseline).notes
         = .val ["LLM response could not be parsed as JSON. Using baseline extraction."]) := by
  intro cfg job model optionsOcr decryptOk native ocr oT lT baseline parseJson now content msg tr
  refine ⟨?_, ?_, ⟨rfl, rfl, rfl, rfl, rfl⟩, ?_, ⟨rfl, rfl, rfl, rfl⟩⟩
  · intro h1 h2 h3 h4 h5 h6
    have hne : ¬ (job.status ≠ Status.uploaded) := by simp [h1]
    simp only [analyzeHandler, if_neg hne, if_neg h2, if_neg h3, if_neg h4, if_neg h5, h6]
    exact ⟨by simp, by simp⟩
  · intro h
    simp only [analyzeWithLLM, h]
  · intro hEn hSpan
    have hne : ¬ (¬ cfg.llamaEnabled = true) := by simp [hEn]
    simp only [analyzeWithLlama, if_neg hne, hSpan]

/-- C3 witness: the soft-fallback theorem instantiated at a concrete
openai-transport-failure run. -/
theorem c3_provider_failure_soft_fallback_witness :
    (analyzeHandler cfgAllOn jobUploaded .openai false true (some sampleLongText)
        none emptyJObj none none (fun _ => none) "now").2.status = .completed :=
  ((c3_provider_failure_soft_fallback cfgAllOn jobUploaded .openai false true
      (some sampleLongText) none none none emptyJObj (fun _ => none) "now" "c" "msg"
      { text := sampleLongText, extractionMethod := .pdfParse }).1
    rfl (by decide) (by decide) (by decide) (by decide) (by decide)).1

/-- C5: confirmed — with `forceOCR = false`, `extractText` returns the
native parse tagged `pdf-parse` exactly when native parsing succeeds with
at least 50 characters of trimmed text; short native text or a native throw
falls back to OCR (tagged `tesseract-ocr`); the terminal extraction error
occurs exactly when the native path was unusable (throw or short text) and
OCR also fails; `forceOCR = true` goes straight to OCR. -/
theorem c5_extractText_fallback_contract :
    ∀ (native ocr : Option String),
      (∀ t, native = some t →
        (extractText native ocr false = some { text := t, extractionMethod := .pdfParse }
          ↔ 50 ≤ (jsTrim t).length)) ∧
      (∀ t, native = some t → (jsTrim t).length < 50 →
        extractText native ocr false = extractTextWithOCR ocr) ∧
      (native = none → extractText native ocr false = extractTextWithOCR ocr) ∧
      (extractText native ocr false = none ↔
        ((native = none ∨ ∃ t, native = some t ∧ (jsTrim t).length < 50) ∧ ocr = none)) ∧
      (extractText native ocr true = extractTextWithOCR ocr) ∧
      (∀ t, ocr = some t →
        extractTextWithOCR ocr = some { text := t, extractionMethod := .tesseractOcr }) := by
  intro native ocr
  refine ⟨?_, ?_, ?_, ?_, ?_, ?_⟩
  · intro t h; subst h
    by_cases hlen : 50 ≤ (jsTrim t).length
    · simp [extractText, extractTextFromPDF, hlen]
    · cases ocr with
      | none => simp [extractText, extractTextFromPDF, extractTextWithOCR, hlen]
      | some u =>
        simp [extractText, extractTextFromPDF, extractTextWithOCR, hlen]
  · intro t h hlen; subst h
    simp [extractText, extractTextFromPDF, Nat.not_le.mpr hlen]
  · intro h; subst h
    simp [extractText, extractTextFromPDF]
  · cases native with
    | none => cases ocr <;> simp [extractText, extractTextFromPDF, extractTextWithOCR]
    | some t0 =>
      by_cases hlen : 50 ≤ (jsTrim t0).length
      · cases ocr <;>
          simp [extractText, extractTextFromPDF, extractTextWithOCR, hlen, Nat.not_lt.mpr hlen]
      · cases ocr <;>
          simp [extractText, extractTextFromPDF, extractTextWithOCR, hlen, Nat.lt_of_not_le hlen]
  · simp [extractText]
  · intro t h; subst h; simp [extractTextWithOCR]

/-- C5 witness: a 63-character native text is accepted as `pdf-parse`. -/
theorem c5_extractText_fallback_contract_witness :
    extractText (some sampleLongText) none false
      = some { text := sampleLongText, extractionMethod := .pdfParse } :=
  ((c5_extractText_fallback_contract (some sampleLongText) none).1
    sampleLongText rfl).mpr (by decide)

/-- C7: amended — the analysis-stage gate computes: external provider
allowed iff configured and the global `allowExternalPHI` flag is set; local
provider allowed iff minimally configured; the job's consent flag is not
consulted at analysis time (the gate's value is invariant in it).  Consent
is instead enforced for every job, of either provider, at upload: a job
record exists only if the upload carried `consent = 'true'`, and every
created record has `consentGiven = true`.  The final conjunct ties the gate
definition to handler behavior: with encryption off, a submission on an
`uploaded` job is rejected by the outer catch exactly when the gate denies it. -/
theorem c7_gate_characterization :
    ∀ (pe g c c2 : Bool) (cfg : Config) (job : JobRecord) (model : Provider)
      (native ocr oT lT : Option String) (baseline : JObj)
      (parseJson : String → Option JObj) (now consentParam : String) (optionsOcr : Bool),
      (phiGateAllows .openai pe g c = (pe && g)) ∧
      (phiGateAllows .llama pe g c = pe) ∧
      (phiGateAllows model pe g c = phiGateAllows model pe g c2) ∧
      (phiGateAllows .openai true false c = false) ∧
      (phiGateAllows .openai true true c = true) ∧
      (phiGateAllows .llama true false c = true) ∧
      ((uploadCreatesJob consentParam).isSome ↔ consentParam = "true") ∧
      (∀ j, uploadCreatesJob consentParam = some j → j.consentGiven = true) ∧
      (job.status = .uploaded → cfg.encryptFiles = false →
        ((analyzeHandler cfg job model optionsOcr true native ocr baseline oT lT
            parseJson now).1 = .requestFailed
          ↔ phiGateAllows model
              (match model with | .openai => cfg.openaiEnabled | .llama => cfg.llamaEnabled)
              cfg.allowExternalPHI job.consentGiven = false)) := by
  intro pe g c c2 cfg job model native ocr oT lT baseline parseJson now consentParam optionsOcr
  refine ⟨rfl, rfl, ?_, rfl, rfl, rfl, ?_, ?_, ?_⟩
  · cases model <;> rfl
  · constructor
    · intro h
      by_cases hc : consentParam = "true"
      · exact hc
      · simp [uploadCreatesJob, hc] at h
    · intro h; simp [uploadCreatesJob, h]
  · intro j hj
    by_cases hc : consentParam = "true"
    · simp [uploadCreatesJob, hc] at hj
      rw [← hj]
    · simp [uploadCreatesJob, hc] at hj
  · intro h1 h2
    have hne : ¬ (job.status ≠ Status.uploaded) := by simp [h1]
    cases model with
    | openai =>
      by_cases hoe : cfg.openaiEnabled
      · by_cases hg : cfg.allowExternalPHI
        · simp only [analyzeHandler, if_neg hne, phiGateAllows, hoe, hg, h2]
          cases hE : extractText native ocr optionsOcr <;> simp [hE]
        · simp [analyzeHandler, if_neg hne, phiGateAllows, hoe, hg, h2]
      · simp [analyzeHandler, if_neg hne, phiGateAllows, hoe, h2]
    | llama =>
      by_cases hle : cfg.llamaEnabled
      · simp only [analyzeHandler, if_neg hne, phiGateAllows, hle, h2]
        cases hE : extractText native ocr optionsOcr <;> simp [hE]
      · simp [analyzeHandler, if_neg hne, phiGateAllows, hle, h2]

/-- C7 witness: the gate/handler correspondence instantiated at a concrete
denied submission (openai requested, external PHI processing disabled). -/
theorem c7_gate_characterization_witness :
    (analyzeHandler cfgExternalOff jobUploaded .openai false true none none
        emptyJObj none none (fun _ => none) "now").1 = .requestFailed := by
  have h := (c7_gate_characterization true true false false cfgExternalOff jobUploaded
      .openai none none none none emptyJObj (fun _ => none) "now" "true"
      false).2.2.2.2.2.2.2.2
  exact (h rfl rfl).mpr (by decide)

/-- The end-to-end scenario input of C8. -/
def c8Input : String :=
  "Patient: John Doe\nDOB: 01/15/1980\nMedications: Amoxicillin 500mg TID"

/-- C8 counterexample: on the scenario input the extracted patient name is
not `"John Doe"` (the greedy, case-insensitive name pattern crosses the
newline and also captures the `DOB` label), and no extracted medication has
a dose containing the space-separated `"500 mg"` form (the dose is captured
verbatim as `"500mg"`; the extractor performs no dose normalization). -/
theorem c8_name_and_dose_diverge :
    ¬ (extractPatientInfo c8Input).name = some "John Doe" ∧
    (extractMedications c8Input).all
      (fun m => ¬ strContains m.dose "500 mg") = true := by
  decide

/-- C8: amended — on the scenario input the baseline contains
`patient.name = "John Doe\nDOB"` (which still contains `"John Doe"`),
`patient.dob = "1980-01-15"` as claimed, and exactly one medication — from
the bare name+dose pattern; the two more specific patterns do not match —
with `name = "Amoxicillin"` (as claimed, the name contains `"Amoxicillin"`)
and `dose = "500mg"` without a space. -/
theorem c8_baseline_computed :
    extractPatientInfo c8Input =
      { name := some "John Doe\nDOB", dob := some "1980-01-15",
        sex := none, id := none } ∧
    extractMedications c8Input =
      [{ name := "Amoxicillin", dose := "500mg", frequency := none, route := none,
         duration := none, raw_text := "Amoxicillin 500mg", confidence := mkRat 8 10 }] ∧
    strContains "John Doe\nDOB" "John Doe" = true ∧
    strContains "Amoxicillin" "Amoxicillin" = true := by
  decide

/-- C9 counterexample: a reference range whose parsed lower bound exceeds
its upper bound (`"16-12"`) refutes the biconditionals as claimed: the
value 14 is strictly above the parsed upper bound 12, yet the flag is `low`
(the `value < low` test fires first), not `high`. -/
theorem c9_inverted_range_flag :
    parseRefRange "16-12" = some (16, 12) ∧
    (12 : ℚ) < 14 ∧
    determineLabFlag 14 (some "16-12") = .low ∧
    ¬ determineLabFlag 14 (some "16-12") = .high := by
  decide

/-- C9: amended — for a parseable range the flag is `low` iff the value is
strictly below the parsed lower bound; `high` iff it is not below the lower
bound *and* strictly above the upper bound (the low test has priority, which
only matters for inverted ranges); `normal` otherwise; and an absent or
unparseable reference range always yields `normal`.  For well-formed ranges
(lower ≤ upper) these conditions coincide with the claim's biconditionals. -/
theorem c9_flag_characterization :
    ∀ (v l h : ℚ) (r : String),
      (parseRefRange r = some (l, h) →
        (determineLabFlag v (some r) = .low ↔ v < l) ∧
        (determineLabFlag v (some r) = .high ↔ ¬ v < l ∧ h < v) ∧
        (determineLabFlag v (some r) = .normal ↔ ¬ v < l ∧ ¬ h < v)) ∧
      (parseRefRange r = none → determineLabFlag v (some r) = .normal) ∧
      determineLabFlag v none = .normal := by
  intro v l h r
  refine ⟨?_, ?_, rfl⟩
  · intro hp
    have hr : ¬ r = "" := by
      intro he; subst he
      rw [show parseRefRange "" = none by decide] at hp
      exact Option.noConfusion hp
    simp only [determineLabFlag, if_neg hr, hp]
    refine ⟨?_, ?_, ?_⟩ <;> split_ifs with h1 h2 <;> simp_all
  · intro hp
    by_cases hr : r = ""
    · subst hr; simp [determineLabFlag]
    · simp only [determineLabFlag, if_neg hr, hp]

/-- C9 witness: value 10 against the range `"12-16"` is flagged `low`. -/
theorem c9_flag_characterization_witness :
    determineLabFlag 10 (some "12-16") = .low :=
  (((c9_flag_characterization 10 12 16 "12-16").1 (by decide)).1).mpr (by decide)

/-- C10: confirmed — `normalizeDate` is total and month-first: whenever the
input splits on `/` or `-` into exactly three parts, the result is
`Y-P1-P2` with `Y` equal to `"20"` prepended to the third part when that
part has length two (two digits in every date-shaped input) and the third
part unchanged otherwise, and `P1`, `P2` the first and second parts
left-padded to width 2 — with no validation that `P1` is a month or `P2` a
day; any other input is returned unchanged. -/
theorem c10_normalizeDate_characterization :
    ∀ (s p1 p2 p3 : String),
      (splitDateParts s = [p1, p2, p3] →
        normalizeDate s =
          (if p3.length = 2 then "20" ++ p3 else p3) ++ "-" ++ padStart2 p1
            ++ "-" ++ padStart2 p2) ∧
      ((splitDateParts s).length ≠ 3 → normalizeDate s = s) := by
  intro s p1 p2 p3
  constructor
  · intro hsplit
    simp only [normalizeDate, hsplit]
  · intro hlen
    rcases hs : splitDateParts s with _ | ⟨a, _ | ⟨b, _ | ⟨c, _ | ⟨d, t⟩⟩⟩⟩ <;>
      simp only [normalizeDate, hs]
    · exact absurd (by rw [hs]; rfl) hlen

/-- C10 witness: the day-first input `"15-01-1980"` yields `"1980-15-01"`,
which is not a valid ISO-8601 date (month 15). -/
theorem c10_normalizeDate_characterization_witness :
    normalizeDate "15-01-1980" = "1980-15-01" := by
  have h := (c10_normalizeDate_characterization "15-01-1980" "15" "01" "1980").1 (by decide)
  rw [h]
  decide
